import Mathlib

/-!
Verification of `easyminio.go` (package easyminio), a thin facade over an
S3-compatible object store.  The Go source is shallowly embedded below:
pure string manipulation is translated directly; network effects
(`FGetObject`, `PutObject`, `SetBucketLifecycle`, `PresignedGetObject`,
`ListObjectsV2`) are modelled as the requests the code constructs, with
their outcomes supplied as explicit parameters; the goroutine fan-out of
`DownloadDirectory` is modelled by explicit lists of dispatched workers,
download tasks and collected failures.
-/

namespace EasyMinio

/-- Abstract error value (Go `error`). -/
structure Err where
  msg : String
deriving DecidableEq, Repr

/-- One entry received from the `ListObjectsV2` channel (minio `ObjectInfo`):
either an object key or an enumeration error (`obj.Err != nil`). -/
inductive Entry where
  | obj (key : String)
  | err (e : Err)
deriving DecidableEq, Repr

/-- Embeds Go `strings.HasPrefix(s, pre)` on the character lists underlying
the strings: true iff `pre` is an initial segment of `s`. -/
def goHasPre : List Char → List Char → Bool
  | _, [] => true
  | [], _ :: _ => false
  | c :: cs, p :: ps => p == c && goHasPre cs ps

/-- Embeds Go `strings.HasSuffix(s, suf)`:
`len(s) >= len(suf) && s[len(s)-len(suf):] == suf`. -/
def goHasSuf (s suf : List Char) : Bool :=
  decide (suf.length ≤ s.length) && (s.drop (s.length - suf.length) == suf)

/-- Embeds Go `strings.TrimPrefix(s, pre)`: drops `pre` from the front of `s`
when `s` starts with `pre`, otherwise returns `s` unchanged. -/
def goTrimPre (s pre : String) : String :=
  if goHasPre s.data pre.data then ⟨s.data.drop pre.data.length⟩ else s

/-- Local destination computed by `DownloadDirectory` for object `key`:
`fileName := strings.TrimPrefix(obj.Key, path+"/")` and the download target
`localPath+"/"+fileName` (easyminio.go lines 112-114). -/
def deriveLocalPath (path localPath key : String) : String :=
  localPath ++ "/" ++ goTrimPre key (path ++ "/")

/-- Keys for which `DownloadDirectory`'s listing loop executes
`wg.Add(1); go func(obj)` — every entry received before the first
enumeration error.  On an error entry the loop returns at once
(easyminio.go lines 99-105), so later entries are never consumed. -/
def dispatchedWorkers : List Entry → List String
  | [] => []
  | Entry.err _ :: _ => []
  | Entry.obj k :: rest => k :: dispatchedWorkers rest

/-- The first enumeration error the listing loop observes, if any. -/
def listFirstErr : List Entry → Option Err
  | [] => none
  | Entry.err e :: _ => some e
  | Entry.obj _ :: rest => listFirstErr rest

/-- Download tasks actually performed by the dispatched workers: a worker
whose key ends in "/" returns without downloading (easyminio.go line 107);
every other worker downloads its key to the derived local path. -/
def downloadTasks (path localPath : String) (keys : List String) : List (String × String) :=
  keys.filterMap fun k =>
    if goHasSuf k.data ("/" : String).data then none
    else some (k, deriveLocalPath path localPath k)

/-- Failures the workers push into `errCh`, one per task whose
`DownloadFile` call fails.  Channel arrival order is nondeterministic in
the source; the model fixes the dispatch order, one admissible schedule. -/
def workerFailures (dl : String → String → Option Err) (tasks : List (String × String)) : List Err :=
  tasks.filterMap fun t => dl t.1 t.2

/-- Result of `DownloadDirectory`: success, an enumeration error returned
directly from the listing loop, or the aggregate error
`fmt.Errorf("failed to download files from s3: %v", errs)`, modelled as
carrying the whole collected list `errs`. -/
inductive DirResult where
  | ok
  | listErr (e : Err)
  | agg (errs : List Err)
deriving DecidableEq, Repr

/-- Embeds `DownloadDirectory` (easyminio.go lines 90-138), parametrised by
the listing contents `entries` and the outcome `dl key dest` of each
`DownloadFile` call (`none` = success).  On the first enumeration error the
function returns that error; otherwise it drains all worker failures and
returns the aggregate error when the list is non-empty. -/
def downloadDirectoryResult (path localPath : String) (entries : List Entry)
    (dl : String → String → Option Err) : DirResult :=
  match listFirstErr entries with
  | some e => DirResult.listErr e
  | none =>
    let errs := workerFailures dl (downloadTasks path localPath (dispatchedWorkers entries))
    if 0 < errs.length then DirResult.agg errs else DirResult.ok

/-- Downloads that complete successfully in one run: the dispatched tasks
whose `DownloadFile` call succeeds.  (Workers dispatched before an
enumeration error still run to completion.) -/
def succeededDownloads (path localPath : String) (entries : List Entry)
    (dl : String → String → Option Err) : List (String × String) :=
  (downloadTasks path localPath (dispatchedWorkers entries)).filter fun t => (dl t.1 t.2).isNone

/-- Workers left blocked on the early-error exit path.  When the listing
loop returns an enumeration error, the `wg.Wait`/`close(errCh)` goroutine
is never started and `errCh` is never read, so every already-dispatched
worker whose download fails blocks forever on `errCh <- err`
(easyminio.go lines 100-101 vs 115-117, 123-131). -/
def blockedWorkers (path localPath : String) (entries : List Entry)
    (dl : String → String → Option Err) : List (String × String) :=
  match listFirstErr entries with
  | some _ =>
    (downloadTasks path localPath (dispatchedWorkers entries)).filter fun t => (dl t.1 t.2).isSome
  | none => []

/-- Whether the run reaches the synchronisation barrier
(`go func() { wg.Wait(); close(errCh) }()` followed by draining `errCh`,
easyminio.go lines 123-131): only on the path with no enumeration error. -/
def barrierRan (entries : List Entry) : Bool :=
  (listFirstErr entries).isNone

/-- The facade state (Go struct `S3Service`, easyminio.go lines 17-22):
the minio client handle (abstracted to an opaque identifier), the unused
`lifeCycleRules` string, the bucket name and the default presigned-URL
query values. -/
structure S3Service where
  s3Client : Nat
  lifeCycleRules : String
  bucketName : String
  urlValues : List (String × String)
deriving DecidableEq, Repr

/-- Embeds `NewS3Service` (easyminio.go lines 25-49): given the abstract
client handle and the store's answer to `BucketExists`, either builds the
session (with `lifeCycleRules` empty and the fixed
`response-content-disposition: inline` query value) or fails. -/
def newS3Service (client : Nat) (bucketName : String) (bucketExists : Bool) :
    Except String S3Service :=
  if bucketExists then
    Except.ok
      { s3Client := client
        lifeCycleRules := ""
        bucketName := bucketName
        urlValues := [("response-content-disposition", "inline")] }
  else
    Except.error ("s3 bucket (" ++ bucketName ++ ") doesn't exist")

/-- A `SetBucketLifecycle` request: target bucket and the XML policy. -/
structure LifecycleReq where
  bucket : String
  policy : String
deriving DecidableEq, Repr

/-- A `PutObject` request as constructed by the upload operations:
bucket, key, the data stream (a byte list), the size argument (`-1` for
unknown/streamed) and the declared content type. -/
structure PutReq where
  bucket : String
  key : String
  data : List Nat
  size : Int
  contentType : String
deriving DecidableEq, Repr

/-- A `PresignedGetObject` request: bucket, key, requested expiry in
nanoseconds (Go `time.Duration`) and the query values. -/
structure PresignReq where
  bucket : String
  key : String
  expiry : Int
  params : List (String × String)
deriving DecidableEq, Repr

/-- An `FGetObject` request: bucket, key and local destination path. -/
structure FGetReq where
  bucket : String
  key : String
  localPath : String
deriving DecidableEq, Repr

/-- Go `time.Hour` in nanoseconds. -/
def timeHour : Int := 3600 * 1000000000

/-- The lifecycle policy XML built by `AddLifeCycleRule`
(easyminio.go lines 54-60): the folder path gets a trailing "/" appended
when missing, then the `fmt.Sprintf` template is filled in. -/
def lifeCycleString (ruleID folderPath : String) (daysToExpiry : Int) : String :=
  let fp := if goHasSuf folderPath.data ("/" : String).data then folderPath
            else folderPath ++ "/"
  "<LifecycleConfiguration><Rule><ID>" ++ ruleID ++ "</ID><Prefix>" ++ fp ++
    "</Prefix><Status>Enabled</Status><Expiration><Days>" ++ toString daysToExpiry ++
    "</Days></Expiration></Rule></LifecycleConfiguration>"

/-- Spec-side template, written from the spec's words for comparison:
"policy is a minimal XML document with one rule:
LifecycleConfiguration / Rule / ID, Prefix, Status Enabled,
Expiration Days" with the given rule id, prefix and day count. -/
def specLifecycleXML (ruleID pfx : String) (days : Int) : String :=
  "<LifecycleConfiguration><Rule><ID>" ++ ruleID ++ "</ID><Prefix>" ++ pfx ++
    "</Prefix><Status>Enabled</Status><Expiration><Days>" ++ toString days ++
    "</Days></Expiration></Rule></LifecycleConfiguration>"

/-- Embeds `AddLifeCycleRule` (easyminio.go lines 53-63): returns the
(unchanged) receiver together with the `SetBucketLifecycle` request it
submits. -/
def S3Service.addLifeCycleRule (s : S3Service) (ruleID folderPath : String)
    (daysToExpiry : Int) : S3Service × LifecycleReq :=
  (s, { bucket := s.bucketName, policy := lifeCycleString ruleID folderPath daysToExpiry })

/-- Embeds `UploadJSONFile` (easyminio.go lines 66-69): one `PutObject`
request with size `-1` and content type `application/json`. -/
def S3Service.uploadJSONFile (s : S3Service) (path : String) (data : List Nat) :
    S3Service × PutReq :=
  (s, { bucket := s.bucketName, key := path, data := data, size := -1,
        contentType := "application/json" })

/-- Embeds `GetFileURL` (easyminio.go lines 73-75): one
`PresignedGetObject` request with the caller-supplied expiration and the
session's query values. -/
def S3Service.getFileURL (s : S3Service) (path : String) (expiration : Int) :
    S3Service × PresignReq :=
  (s, { bucket := s.bucketName, key := path, expiry := expiration, params := s.urlValues })

/-- Embeds `UploadJSONFileWithLink` (easyminio.go lines 79-86): the
`PutObject` request is always issued; `putErr` is the store's outcome for
it.  On failure the function returns early with no presign request; on
success it requests a presigned URL with expiry `24*time.Hour` — the
`expiration` parameter is never used. -/
def S3Service.uploadJSONFileWithLink (s : S3Service) (path : String) (data : List Nat)
    (expiration : Int) (putErr : Option Err) : S3Service × (PutReq × Option PresignReq) :=
  let _ := expiration
  let put : PutReq :=
    { bucket := s.bucketName, key := path, data := data, size := -1,
      contentType := "application/json" }
  match putErr with
  | some _ => (s, (put, none))
  | none =>
    (s, (put, some { bucket := s.bucketName, key := path, expiry := 24 * timeHour,
                     params := s.urlValues }))

/-- Embeds `DownloadFile` (easyminio.go lines 141-143): one `FGetObject`
request. -/
def S3Service.downloadFile (s : S3Service) (path localPath : String) :
    S3Service × FGetReq :=
  (s, { bucket := s.bucketName, key := path, localPath := localPath })

/-- Embeds the `DownloadDirectory` method (easyminio.go lines 90-138) at
the facade level: unchanged receiver paired with the orchestrator result. -/
def S3Service.downloadDirectory (s : S3Service) (path localPath : String)
    (entries : List Entry) (dl : String → String → Option Err) : S3Service × DirResult :=
  (s, downloadDirectoryResult path localPath entries dl)

/-! Helper lemmas. -/

theorem goHasPre_iff (s pre : List Char) : goHasPre s pre = true ↔ ∃ t, pre ++ t = s := by
  induction pre generalizing s with
  | nil =>
    simp [goHasPre]
  | cons p ps ih =>
    cases s with
    | nil =>
      simp [goHasPre]
    | cons c cs =>
      simp only [goHasPre, Bool.and_eq_true, beq_iff_eq, ih, List.cons_append,
        List.cons.injEq]
      constructor
      · rintro ⟨hpc, t, ht⟩
        exact ⟨t, hpc, ht⟩
      · rintro ⟨t, hpc, ht⟩
        exact ⟨hpc, t, ht⟩

theorem string_data_append (a b : String) : (a ++ b).data = a.data ++ b.data := rfl

theorem string_eq_of_data {a b : String} (h : a.data = b.data) : a = b := by
  cases a
  cases b
  exact congrArg String.mk h

theorem listFirstErr_map_obj (keys : List String) :
    listFirstErr (keys.map Entry.obj) = none := by
  induction keys with
  | nil => rfl
  | cons k ks ih => simpa [listFirstErr] using ih

theorem dispatchedWorkers_map_obj (keys : List String) :
    dispatchedWorkers (keys.map Entry.obj) = keys := by
  induction keys with
  | nil => rfl
  | cons k ks ih => simp [dispatchedWorkers, ih]

theorem listFirstErr_append_err (pre : List Entry) (h : listFirstErr pre = none)
    (e : Err) (rest : List Entry) :
    listFirstErr (pre ++ Entry.err e :: rest) = some e := by
  induction pre with
  | nil => rfl
  | cons a as ih =>
    cases a with
    | obj k => exact ih (by simpa [listFirstErr] using h)
    | err e' => simp [listFirstErr] at h

theorem dispatchedWorkers_append_err (pre : List Entry) (h : listFirstErr pre = none)
    (e : Err) (rest : List Entry) :
    dispatchedWorkers (pre ++ Entry.err e :: rest) = dispatchedWorkers pre := by
  induction pre with
  | nil => rfl
  | cons a as ih =>
    cases a with
    | obj k =>
      simp only [List.cons_append, dispatchedWorkers]
      congr 1
      exact ih (by simpa [listFirstErr] using h)
    | err e' => simp [listFirstErr] at h

/-! Claim theorems. -/

/-- Claim C1: when the listing completes without an enumeration error,
`DownloadDirectory` returns success exactly when no per-object download
failed, and when one or more fail it returns a single aggregate error
wrapping the full ordered collection of all collected failure records. -/
theorem c1_downloadDirectory_aggregate (path localPath : String) (entries : List Entry)
    (dl : String → String → Option Err) (h : listFirstErr entries = none) :
    (downloadDirectoryResult path localPath entries dl = DirResult.ok ↔
      workerFailures dl (downloadTasks path localPath (dispatchedWorkers entries)) = [])
    ∧ (workerFailures dl (downloadTasks path localPath (dispatchedWorkers entries)) ≠ [] →
      downloadDirectoryResult path localPath entries dl =
        DirResult.agg (workerFailures dl (downloadTasks path localPath (dispatchedWorkers entries)))) := by
  unfold downloadDirectoryResult
  rw [h]
  cases hfail : workerFailures dl (downloadTasks path localPath (dispatchedWorkers entries)) with
  | nil => simp [hfail]
  | cons a l => simp [hfail]

/-- Download outcome used for the C1 witness: every download fails. -/
def dlC1 : String → String → Option Err := fun _ _ => some { msg := "boom" }

/-- Witness for C1 at a concrete one-object listing whose download fails. -/
theorem c1_downloadDirectory_aggregate_witness :
    listFirstErr [Entry.obj "p/x.json"] = none
    ∧ workerFailures dlC1 (downloadTasks "p" "/t" (dispatchedWorkers [Entry.obj "p/x.json"])) ≠ []
    ∧ downloadDirectoryResult "p" "/t" [Entry.obj "p/x.json"] dlC1 =
        DirResult.agg (workerFailures dlC1 (downloadTasks "p" "/t" (dispatchedWorkers [Entry.obj "p/x.json"])))
    ∧ (downloadDirectoryResult "p" "/t" [Entry.obj "p/x.json"] dlC1 = DirResult.ok ↔
        workerFailures dlC1 (downloadTasks "p" "/t" (dispatchedWorkers [Entry.obj "p/x.json"])) = []) :=
  ⟨rfl, by decide,
    (c1_downloadDirectory_aggregate "p" "/t" [Entry.obj "p/x.json"] dlC1 rfl).2 (by decide),
    (c1_downloadDirectory_aggregate "p" "/t" [Entry.obj "p/x.json"] dlC1 rfl).1⟩

/-- Claim C2: when the listing reports an enumeration error at entry K
(first error), `DownloadDirectory` returns that error itself — not an
aggregate — and the dispatched workers are exactly those of the entries
before K, so nothing at or after K is ever downloaded. -/
theorem c2_listErr_shortCircuit (path localPath : String) (pre : List Entry) (e : Err)
    (rest : List Entry) (dl : String → String → Option Err)
    (h : listFirstErr pre = none) :
    downloadDirectoryResult path localPath (pre ++ Entry.err e :: rest) dl = DirResult.listErr e
    ∧ dispatchedWorkers (pre ++ Entry.err e :: rest) = dispatchedWorkers pre := by
  constructor
  · unfold downloadDirectoryResult
    rw [listFirstErr_append_err pre h e rest]
  · exact dispatchedWorkers_append_err pre h e rest

/-- Download outcome used for the C2 witness: every download succeeds. -/
def dlC2 : String → String → Option Err := fun _ _ => none

/-- Witness for C2 at a concrete listing erroring after its first object. -/
theorem c2_listErr_shortCircuit_witness :
    listFirstErr [Entry.obj "q/a.txt"] = none
    ∧ (downloadDirectoryResult "q" "/t"
        ([Entry.obj "q/a.txt"] ++ Entry.err { msg := "enum fail" } :: [Entry.obj "q/b.txt"])
        dlC2 = DirResult.listErr { msg := "enum fail" }
      ∧ dispatchedWorkers
          ([Entry.obj "q/a.txt"] ++ Entry.err { msg := "enum fail" } :: [Entry.obj "q/b.txt"]) =
        dispatchedWorkers [Entry.obj "q/a.txt"]) :=
  ⟨rfl, c2_listErr_shortCircuit "q" "/t" [Entry.obj "q/a.txt"] { msg := "enum fail" }
    [Entry.obj "q/b.txt"] dlC2 rfl⟩

/-- Listing used for claim C3: the spec's concrete scenario. -/
def entsC3 : List Entry :=
  [Entry.obj "reports/2024/", Entry.obj "reports/2024/a.json", Entry.obj "reports/2024/b.json"]

/-- Download outcome used for claim C3: every download succeeds. -/
def dlC3 : String → String → Option Err := fun _ _ => none

/-- Counterexample to C3 as stated: calling `DownloadDirectory` with the
remote prefix "reports/2024/" (trailing separator included, as the claim
says), the code strips `path+"/"` = "reports/2024//", which matches no
key, so the files land at "/tmp/out/reports/2024/a.json" and
"/tmp/out/reports/2024/b.json" — not at "/tmp/out/a.json" and
"/tmp/out/b.json". -/
theorem c3_trailingSlash_counterexample :
    (succeededDownloads "reports/2024/" "/tmp/out" entsC3 dlC3).map Prod.snd =
      ["/tmp/out/reports/2024/a.json", "/tmp/out/reports/2024/b.json"]
    ∧ (succeededDownloads "reports/2024/" "/tmp/out" entsC3 dlC3).map Prod.snd ≠
      ["/tmp/out/a.json", "/tmp/out/b.json"]
    ∧ downloadDirectoryResult "reports/2024/" "/tmp/out" entsC3 dlC3 = DirResult.ok := by
  refine ⟨rfl, by decide, rfl⟩

/-- Claim C3 amended: in the same scenario but with the remote prefix
passed without the trailing separator ("reports/2024"), the marker
produces no download task, the files are downloaded to "/tmp/out/a.json"
and "/tmp/out/b.json", and the function returns success. -/
theorem c3_scenario_amended :
    downloadTasks "reports/2024" "/tmp/out" (dispatchedWorkers entsC3) =
      [("reports/2024/a.json", "/tmp/out/a.json"), ("reports/2024/b.json", "/tmp/out/b.json")]
    ∧ (succeededDownloads "reports/2024" "/tmp/out" entsC3 dlC3).map Prod.snd =
      ["/tmp/out/a.json", "/tmp/out/b.json"]
    ∧ downloadDirectoryResult "reports/2024" "/tmp/out" entsC3 dlC3 = DirResult.ok :=
  ⟨rfl, rfl, rfl⟩

/-- Counterexample to C4 as stated: under prefix "a" a recursive listing
(raw string-prefix match) can yield both "a/ab" and "ab"; the two distinct
keys derive the same local path "/tmp/ab". -/
theorem c4_deriveLocalPath_collision :
    goHasPre ("a/ab" : String).data ("a" : String).data = true
    ∧ goHasPre ("ab" : String).data ("a" : String).data = true
    ∧ ("a/ab" : String) ≠ "ab"
    ∧ deriveLocalPath "a" "/tmp" "a/ab" = deriveLocalPath "a" "/tmp" "ab" := by
  refine ⟨rfl, rfl, by decide, rfl⟩

/-- Claim C4 amended: the local path derivation is injective over keys
that extend the prefix plus separator — for every two distinct keys each
starting with `path ++ "/"`, the derived local paths are distinct. -/
theorem c4_deriveLocalPath_injective (path localPath k1 k2 : String)
    (h1 : goHasPre k1.data (path ++ "/").data = true)
    (h2 : goHasPre k2.data (path ++ "/").data = true)
    (hne : k1 ≠ k2) :
    deriveLocalPath path localPath k1 ≠ deriveLocalPath path localPath k2 := by
  obtain ⟨t1, ht1⟩ := (goHasPre_iff _ _).mp h1
  obtain ⟨t2, ht2⟩ := (goHasPre_iff _ _).mp h2
  have e1 : goTrimPre k1 (path ++ "/") = ⟨t1⟩ := by
    unfold goTrimPre
    rw [if_pos h1]
    congr 1
    rw [← ht1, List.drop_left]
  have e2 : goTrimPre k2 (path ++ "/") = ⟨t2⟩ := by
    unfold goTrimPre
    rw [if_pos h2]
    congr 1
    rw [← ht2, List.drop_left]
  intro hEq
  apply hne
  unfold deriveLocalPath at hEq
  rw [e1, e2] at hEq
  have hdata : (localPath ++ "/").data ++ t1 = (localPath ++ "/").data ++ t2 := by
    have hd := congrArg String.data hEq
    simpa [string_data_append] using hd
  have ht12 : t1 = t2 := List.append_cancel_left hdata
  apply string_eq_of_data
  rw [← ht1, ← ht2, ht12]

/-- Witness for the amended C4 at two concrete keys under prefix "a". -/
theorem c4_deriveLocalPath_injective_witness :
    goHasPre ("a/x" : String).data ("a" ++ "/" : String).data = true
    ∧ goHasPre ("a/y" : String).data ("a" ++ "/" : String).data = true
    ∧ ("a/x" : String) ≠ "a/y"
    ∧ deriveLocalPath "a" "/t" "a/x" ≠ deriveLocalPath "a" "/t" "a/y" :=
  ⟨rfl, rfl, by decide,
    c4_deriveLocalPath_injective "a" "/t" "a/x" "a/y" rfl rfl (by decide)⟩

/-- Claim C5: for every object set (a listing with no enumeration errors)
in which every download succeeds, `DownloadDirectory` returns success and
every non-directory key is downloaded to the local path derived by
stripping the prefix plus separator and re-rooting under the local root. -/
theorem c5_allSuccess (path localPath : String) (keys : List String)
    (dl : String → String → Option Err) (hdl : ∀ k d, dl k d = none) :
    downloadDirectoryResult path localPath (keys.map Entry.obj) dl = DirResult.ok
    ∧ ∀ k ∈ keys, goHasSuf k.data ("/" : String).data = false →
        (k, deriveLocalPath path localPath k) ∈
          succeededDownloads path localPath (keys.map Entry.obj) dl := by
  constructor
  · unfold downloadDirectoryResult
    rw [listFirstErr_map_obj]
    simp [workerFailures, hdl]
  · intro k hk hsuf
    unfold succeededDownloads
    rw [dispatchedWorkers_map_obj]
    apply List.mem_filter.mpr
    refine ⟨?_, by simp [hdl]⟩
    unfold downloadTasks
    apply List.mem_filterMap.mpr
    refine ⟨k, hk, ?_⟩
    rw [hsuf]
    rfl

/-- Download outcome used for the C5 witness: every download succeeds. -/
def dlC5 : String → String → Option Err := fun _ _ => none

/-- Witness for C5 at a concrete two-key object set with one marker. -/
theorem c5_allSuccess_witness :
    (∀ k d, dlC5 k d = none)
    ∧ downloadDirectoryResult "r" "/t" ((["r/a.txt", "r/sub/"] : List String).map Entry.obj)
        dlC5 = DirResult.ok
    ∧ ("r/a.txt", deriveLocalPath "r" "/t" "r/a.txt") ∈
        succeededDownloads "r" "/t" ((["r/a.txt", "r/sub/"] : List String).map Entry.obj) dlC5 :=
  ⟨fun _ _ => rfl,
    (c5_allSuccess "r" "/t" ["r/a.txt", "r/sub/"] dlC5 (fun _ _ => rfl)).1,
    (c5_allSuccess "r" "/t" ["r/a.txt", "r/sub/"] dlC5 (fun _ _ => rfl)).2
      "r/a.txt" (by decide) (by decide)⟩

/-- Listing used for claim C6: a single pseudo-directory marker. -/
def entsC6 : List Entry := [Entry.obj "p/"]

/-- Counterexample to C6 as stated: for the marker key "p/" the listing
loop still executes `wg.Add(1)` and spawns a goroutine — a worker IS
dispatched for the marker, because the marker test happens inside the
spawned worker (easyminio.go lines 104-110); only the download task is
suppressed. -/
theorem c6_markerWorker_counterexample :
    goHasSuf ("p/" : String).data ("/" : String).data = true
    ∧ dispatchedWorkers entsC6 = ["p/"]
    ∧ downloadTasks "p" "/t" (dispatchedWorkers entsC6) = [] :=
  ⟨rfl, rfl, rfl⟩

/-- Claim C6 amended: for every marker descriptor no download task is
created (the dispatched worker exits without downloading anything), and
for every listing containing only markers `DownloadDirectory` succeeds
with zero downloaded files. -/
theorem c6_marker_noTask (path localPath : String) (keys : List String)
    (dl : String → String → Option Err) :
    (∀ t ∈ downloadTasks path localPath keys, goHasSuf t.1.data ("/" : String).data = false)
    ∧ ((∀ k ∈ keys, goHasSuf k.data ("/" : String).data = true) →
        downloadDirectoryResult path localPath (keys.map Entry.obj) dl = DirResult.ok
        ∧ succeededDownloads path localPath (keys.map Entry.obj) dl = []) := by
  constructor
  · intro t ht
    obtain ⟨a, ha, hsome⟩ := List.mem_filterMap.mp ht
    by_cases hs : goHasSuf a.data ("/" : String).data = true
    · rw [if_pos hs] at hsome
      exact absurd hsome (by simp)
    · rw [if_neg hs] at hsome
      obtain rfl := Option.some.inj hsome
      simpa using hs
  · intro hall
    have htasks : downloadTasks path localPath keys = [] := by
      unfold downloadTasks
      rw [List.filterMap_eq_nil_iff]
      intro a ha
      rw [if_pos (hall a ha)]
    constructor
    · unfold downloadDirectoryResult
      rw [listFirstErr_map_obj]
      simp [dispatchedWorkers_map_obj, htasks, workerFailures]
    · unfold succeededDownloads
      rw [dispatchedWorkers_map_obj, htasks]
      rfl

/-- Download outcome used for the C6 witness: every download succeeds. -/
def dlC6 : String → String → Option Err := fun _ _ => none

/-- Witness for the amended C6: part one at a concrete non-marker task,
part two at a concrete marker-only listing. -/
theorem c6_marker_noTask_witness :
    goHasSuf ("x.txt" : String).data ("/" : String).data = false
    ∧ (∀ k ∈ (["m/"] : List String), goHasSuf k.data ("/" : String).data = true)
    ∧ (downloadDirectoryResult "m" "/t" ((["m/"] : List String).map Entry.obj) dlC6 =
        DirResult.ok
      ∧ succeededDownloads "m" "/t" ((["m/"] : List String).map Entry.obj) dlC6 = []) :=
  ⟨(c6_marker_noTask "m" "/t" ["x.txt"] dlC6).1 ("x.txt", "/t/x.txt") (by decide),
    by decide, (c6_marker_noTask "m" "/t" ["m/"] dlC6).2 (by decide)⟩

/-- Listing used for claim C7: one object, then an enumeration error. -/
def entsC7 : List Entry := [Entry.obj "p/x.json", Entry.err { msg := "net timeout" }]

/-- Download outcome used for claim C7: the dispatched download fails. -/
def dlC7 : String → String → Option Err :=
  fun k _ => if k == "p/x.json" then some { msg := "download failed" } else none

/-- Claim C7 evaluated at a failing input: when the listing errors after
one object was dispatched and that object's download fails, the code
returns the enumeration error without ever reaching the
`wg.Wait`/`close(errCh)` barrier, so the dispatched worker blocks forever
on `errCh <- err` — it is neither awaited nor drained, contradicting the
claim (and the spec's stated resource guarantee).  The early `return
obj.Err` at easyminio.go line 101 precedes the barrier goroutine at lines
123-126, and `errCh` is unbuffered. -/
theorem c7_enumError_leak :
    downloadDirectoryResult "p" "/tmp" entsC7 dlC7 = DirResult.listErr { msg := "net timeout" }
    ∧ dispatchedWorkers entsC7 = ["p/x.json"]
    ∧ barrierRan entsC7 = false
    ∧ blockedWorkers "p" "/tmp" entsC7 dlC7 = [("p/x.json", "/tmp/x.json")] :=
  ⟨rfl, rfl, rfl, rfl⟩

/-- Claim C8: `AddLifeCycleRule` submits exactly the one-rule XML policy
of the spec's template, with the prefix being the folder path with a
trailing separator auto-appended when missing; in particular
`AddLifeCycleRule("r1","logs",30)` submits a policy whose prefix is
"logs/". -/
theorem c8_addLifeCycleRule_policy (s : S3Service) (ruleID folderPath : String)
    (daysToExpiry : Int) :
    (s.addLifeCycleRule ruleID folderPath daysToExpiry).2.policy =
      specLifecycleXML ruleID
        (if goHasSuf folderPath.data ("/" : String).data then folderPath
         else folderPath ++ "/") daysToExpiry
    ∧ (s.addLifeCycleRule "r1" "logs" 30).2.policy =
      "<LifecycleConfiguration><Rule><ID>r1</ID><Prefix>logs/</Prefix><Status>Enabled</Status><Expiration><Days>30</Days></Expiration></Rule></LifecycleConfiguration>" :=
  ⟨rfl, rfl⟩

/-- Claim C9: the facade state is left unchanged by every operation — the
`S3Service` value after each call equals the value before it. -/
theorem c9_s3Service_immutable (s : S3Service) (ruleID folderPath p lp path localPath : String)
    (daysToExpiry : Int) (data : List Nat) (expiration : Int) (putErr : Option Err)
    (entries : List Entry) (dl : String → String → Option Err) :
    (s.addLifeCycleRule ruleID folderPath daysToExpiry).1 = s
    ∧ (s.uploadJSONFile p data).1 = s
    ∧ (s.getFileURL p expiration).1 = s
    ∧ (s.uploadJSONFileWithLink p data expiration putErr).1 = s
    ∧ (s.downloadDirectory path localPath entries dl).1 = s
    ∧ (s.downloadFile p lp).1 = s := by
  refine ⟨rfl, rfl, rfl, ?_, rfl, rfl⟩
  cases putErr <;> rfl

/-- Claim C10: `UploadJSONFileWithLink` ignores its expiration argument —
the requests issued are identical for any two expirations, and the presign
request actually made (on put success) always carries the fixed expiry of
24 hours. -/
theorem c10_uploadJSONFileWithLink_fixed_expiry (s : S3Service) (path : String)
    (data : List Nat) (e1 e2 : Int) (putErr : Option Err) :
    s.uploadJSONFileWithLink path data e1 putErr = s.uploadJSONFileWithLink path data e2 putErr
    ∧ (s.uploadJSONFileWithLink path data e1 none).2.2 =
      some { bucket := s.bucketName, key := path, expiry := 24 * timeHour,
             params := s.urlValues } :=
  ⟨rfl, rfl⟩

end EasyMinio
